import Mathlib

/-!
Shallow embedding of the invoicing program `src/main.py` (a small single-user
invoicing tool) and proofs about its tax/money engine and invoice store.

Python `Decimal` values are modelled as exact rationals (`ℚ`); the program
performs all money arithmetic on `Decimal`, never on binary floats, so exact
rational arithmetic is a faithful model.  `Decimal.quantize(Decimal('0.01'),
ROUND_HALF_UP)` is modelled by `quantize2HalfUp`.  Side-effecting operations
(file read/write, PDF rendering, the Streamlit action handler) are modelled as
pure functions over explicit outcome parameters describing the success or
failure of each external effect.
-/

/-- Model of `IGV_RATE = Decimal('0.18')` (main.py line 17). -/
def igvRate : ℚ := 18 / 100

/-- Model of `Decimal.quantize(Decimal('0.01'), ROUND_HALF_UP)`: rounding to two
decimal places, halves away from zero (for a non-negative argument this is
`⌊100·x + 1/2⌋ / 100`, and the mirrored formula for a negative argument). -/
def quantize2HalfUp (x : ℚ) : ℚ :=
  if 0 ≤ x then ((⌊x * 100 + 1 / 2⌋ : ℤ) : ℚ) / 100
  else -(((⌊-x * 100 + 1 / 2⌋ : ℤ) : ℚ) / 100)

/-- Model of `calcular_base_imponible` (main.py lines 37-39):
`(total / (1 + IGV_RATE)).quantize(Decimal('0.01'), ROUND_HALF_UP)`. -/
def calcular_base_imponible (total : ℚ) : ℚ :=
  quantize2HalfUp (total / (1 + igvRate))

/-- Model of `calcular_igv` (main.py lines 41-43):
`(base_imponible * IGV_RATE).quantize(Decimal('0.01'), ROUND_HALF_UP)`. -/
def calcular_igv (base_imponible : ℚ) : ℚ :=
  quantize2HalfUp (base_imponible * igvRate)

/-- A line item `(nombre, cantidad, precio)` as stored in
`st.session_state['productos']` and in the `productos` field of a persisted
invoice. -/
structure Producto where
  nombre : String
  cantidad : ℕ
  precio : ℚ

/-- The per-line total `precio_decimal * Decimal(str(cantidad))` computed in
the product loop of `generar_factura` (main.py line 108); no intermediate
rounding. -/
def total_linea (cantidad : ℕ) (precio : ℚ) : ℚ :=
  precio * (cantidad : ℚ)

/-- The subtotal accumulation loop of `generar_factura` (main.py lines
103-110): starts at `Decimal('0')` and adds
`calcular_base_imponible(total_linea)` for each product, in order. -/
def facturaSubtotal (productos : List Producto) : ℚ :=
  productos.foldl (fun s p => s + calcular_base_imponible (total_linea p.cantidad p.precio)) 0

/-- The totals block computed by `generar_factura` (main.py lines 103-121). -/
structure Totales where
  subtotal : ℚ
  igv : ℚ
  total : ℚ

/-- The invoice totals exactly as `generar_factura` computes them (main.py
lines 103-121): `subtotal` from the per-line loop, `igv =
calcular_igv(subtotal)`, `total = subtotal + igv - descuento`. -/
def facturaTotales (productos : List Producto) (descuento : ℚ) : Totales :=
  let subtotal := facturaSubtotal productos
  let igv := calcular_igv subtotal
  { subtotal := subtotal, igv := igv, total := subtotal + igv - descuento }

theorem foldl_base_eq_sum (l : List Producto) (a : ℚ) :
    l.foldl (fun s p => s + calcular_base_imponible (total_linea p.cantidad p.precio)) a
      = a + (l.map fun p => calcular_base_imponible (total_linea p.cantidad p.precio)).sum := by
  induction l generalizing a with
  | nil => simp
  | cons p ps ih =>
    simp only [List.foldl_cons, List.map_cons, List.sum_cons, ih]
    ring

/-- C1: for every list of line items and every discount, the engine's totals
satisfy `subtotal = Σ base_from_total(line_total(q,p))` with rounding applied
per line, `tax = tax_from_base(subtotal)` and
`total = subtotal + tax - discount`; on the single item
("Consulting", 2, 100.00) with discount 0 this yields line_total 200.00,
subtotal 169.49, tax 30.51, total 200.00. -/
theorem generar_factura_totales (productos : List Producto) (descuento : ℚ) :
    (facturaTotales productos descuento).subtotal
        = (productos.map fun p => calcular_base_imponible (total_linea p.cantidad p.precio)).sum ∧
    (facturaTotales productos descuento).igv
        = calcular_igv (facturaTotales productos descuento).subtotal ∧
    (facturaTotales productos descuento).total
        = (facturaTotales productos descuento).subtotal
            + (facturaTotales productos descuento).igv - descuento ∧
    total_linea 2 100 = 200 ∧
    (facturaTotales [⟨("Consulting"), 2, 100⟩] 0).subtotal = 16949 / 100 ∧
    (facturaTotales [⟨("Consulting"), 2, 100⟩] 0).igv = 3051 / 100 ∧
    (facturaTotales [⟨("Consulting"), 2, 100⟩] 0).total = 200 := by
  refine ⟨?_, rfl, rfl, by norm_num [total_linea], ?_, ?_, ?_⟩
  · show facturaSubtotal productos = _
    rw [facturaSubtotal, foldl_base_eq_sum, zero_add]
  · show facturaSubtotal _ = _
    norm_num [facturaSubtotal, total_linea, calcular_base_imponible, quantize2HalfUp, igvRate]
  · show calcular_igv (facturaSubtotal _) = _
    norm_num [facturaSubtotal, total_linea, calcular_base_imponible, calcular_igv,
      quantize2HalfUp, igvRate]
  · show facturaSubtotal _ + calcular_igv (facturaSubtotal _) - 0 = 200
    norm_num [facturaSubtotal, total_linea, calcular_base_imponible, calcular_igv,
      quantize2HalfUp, igvRate]

theorem quantize2HalfUp_spec (x : ℚ) (hx : 0 ≤ x) :
    (∃ n : ℤ, quantize2HalfUp x = (n : ℚ) / 100) ∧
    -(1 / 200) < quantize2HalfUp x - x ∧ quantize2HalfUp x - x ≤ 1 / 200 := by
  rw [quantize2HalfUp, if_pos hx]
  have h1 : ((⌊x * 100 + 1 / 2⌋ : ℤ) : ℚ) ≤ x * 100 + 1 / 2 := Int.floor_le _
  have h2 : x * 100 + 1 / 2 < (⌊x * 100 + 1 / 2⌋ : ℤ) + 1 := Int.lt_floor_add_one _
  exact ⟨⟨⌊x * 100 + 1 / 2⌋, rfl⟩, by linarith, by linarith⟩

/-- C2: for every non-negative `T`, `calcular_base_imponible T` is `T / 1.18`
rounded to exactly two decimal places with round-half-up (the result is an
integer number of cents and its error relative to `T / 1.18` lies in
`(-1/200, 1/200]`, which forces halfway cases up, never to even), and for
every non-negative base `b`, `calcular_igv b` is `b * 0.18` rounded the same
way; the arithmetic is exact rational arithmetic, never binary floating
point. -/
theorem calcular_redondeo_half_up (T b : ℚ) (hT : 0 ≤ T) (hb : 0 ≤ b) :
    (∃ n : ℤ, calcular_base_imponible T = (n : ℚ) / 100) ∧
    -(1 / 200) < calcular_base_imponible T - T / (118 / 100) ∧
    calcular_base_imponible T - T / (118 / 100) ≤ 1 / 200 ∧
    (∃ m : ℤ, calcular_igv b = (m : ℚ) / 100) ∧
    -(1 / 200) < calcular_igv b - b * (18 / 100) ∧
    calcular_igv b - b * (18 / 100) ≤ 1 / 200 := by
  have hrate : (1 : ℚ) + igvRate = 118 / 100 := by norm_num [igvRate]
  have hu : 0 ≤ T / (118 / 100) := by positivity
  have hbase : calcular_base_imponible T = quantize2HalfUp (T / (118 / 100)) := by
    rw [calcular_base_imponible, hrate]
  have hv : 0 ≤ b * (18 / 100) := by positivity
  have higv : calcular_igv b = quantize2HalfUp (b * (18 / 100)) := by
    rw [calcular_igv, igvRate]
  obtain ⟨e1, e2, e3⟩ := quantize2HalfUp_spec (T / (118 / 100)) hu
  obtain ⟨f1, f2, f3⟩ := quantize2HalfUp_spec (b * (18 / 100)) hv
  rw [hbase, higv]
  exact ⟨e1, e2, e3, f1, f2, f3⟩

theorem calcular_redondeo_half_up_witness :
    -(1 / 200) < calcular_base_imponible 200 - 200 / (118 / 100) :=
  (calcular_redondeo_half_up 200 0 (by norm_num) (le_refl 0)).2.1

/-- C3 counterexample: at the tax-inclusive total `T = 0.2891` the
reconstruction `base + tax(base)` equals `0.30`, which differs from `T` by
`0.0109 > 0.01`, refuting the claim that the drift is at most one cent for
every `T ≥ 0`. -/
theorem reconstruccion_un_centavo_cex :
    ¬ |calcular_base_imponible (2891 / 10000)
        + calcular_igv (calcular_base_imponible (2891 / 10000)) - 2891 / 10000| ≤ 1 / 100 := by
  have hb : calcular_base_imponible ((2891 : ℚ) / 10000) = 25 / 100 := by
    norm_num [calcular_base_imponible, quantize2HalfUp, igvRate]
  rw [hb]
  have hg : calcular_igv ((25 : ℚ) / 100) = 5 / 100 := by
    norm_num [calcular_igv, quantize2HalfUp, igvRate]
  rw [hg]
  rw [show (25 : ℚ) / 100 + 5 / 100 - 2891 / 10000 = 109 / 10000 by norm_num]
  rw [abs_of_pos (by norm_num)]
  norm_num

/-- C3 (amended): for every tax-inclusive total `T ≥ 0` the reconstruction
`calcular_base_imponible T + calcular_igv (calcular_base_imponible T)` differs
from `T` by at most `0.0109` (the bound `0.01` claimed by the spec fails, and
`0.0109` is attained at `T = 0.2891`). -/
theorem reconstruccion_cota_redondeo (T : ℚ) (hT : 0 ≤ T) :
    |calcular_base_imponible T + calcular_igv (calcular_base_imponible T) - T| ≤ 109 / 10000 := by
  have hrate : (1 : ℚ) + igvRate = 118 / 100 := by norm_num [igvRate]
  have hu : 0 ≤ T / (118 / 100) := by positivity
  have hbase : calcular_base_imponible T = quantize2HalfUp (T / (118 / 100)) := by
    rw [calcular_base_imponible, hrate]
  obtain ⟨⟨n, hn⟩, e2, e3⟩ := quantize2HalfUp_spec (T / (118 / 100)) hu
  have hq : ((-1 : ℤ) : ℚ) < (n : ℚ) := by
    push_cast
    rw [hn] at e2
    linarith
  have hz : (0 : ℤ) ≤ n := by
    have := Int.cast_lt.mp hq
    omega
  have hbnn : 0 ≤ quantize2HalfUp (T / (118 / 100)) := by
    rw [hn]
    have hnq : (0 : ℚ) ≤ (n : ℚ) := by exact_mod_cast hz
    linarith
  have higv : calcular_igv (quantize2HalfUp (T / (118 / 100)))
      = quantize2HalfUp (quantize2HalfUp (T / (118 / 100)) * (18 / 100)) := by
    rw [calcular_igv, igvRate]
  obtain ⟨_, f2, f3⟩ :=
    quantize2HalfUp_spec (quantize2HalfUp (T / (118 / 100)) * (18 / 100)) (by positivity)
  rw [hbase, higv]
  have hTu : T = T / (118 / 100) * (118 / 100) := by ring
  rw [abs_le]
  constructor
  · nlinarith [e2, f2]
  · nlinarith [e3, f3]

theorem reconstruccion_cota_redondeo_witness :
    |calcular_base_imponible (2891 / 10000)
        + calcular_igv (calcular_base_imponible (2891 / 10000)) - 2891 / 10000| ≤ 109 / 10000 :=
  reconstruccion_cota_redondeo (2891 / 10000) (by norm_num)

/-- A persisted invoice record, mirroring the dict `nueva_factura_data`
(main.py lines 538-547) and the JSON snapshot shape: `id`, `cliente`,
`archivo` (path of the rendered PDF), `productos`, `descuento`,
`fecha_emision`, `fecha_vencimiento` (ISO date strings), `notas`. -/
structure Factura where
  id : ℕ
  cliente : String
  archivo : String
  productos : List Producto
  descuento : ℚ
  fecha_emision : String
  fecha_vencimiento : String
  notas : String

/-- Model of `obtener_siguiente_id` (main.py lines 201-205): `1` on an empty
collection, otherwise `max(factura['id'] for factura in facturas) + 1`;
Python's `max` over the ids is modelled by a left fold. -/
def obtener_siguiente_id (facturas : List Factura) : ℕ :=
  match facturas with
  | [] => 1
  | f :: fs => fs.foldl (fun m g => max m g.id) f.id + 1

/-- An invoice record with a given id and all other fields trivial, used for
concrete instances. -/
def facturaEjemplo (n : ℕ) : Factura :=
  { id := n, cliente := "", archivo := "", productos := [], descuento := 0,
    fecha_emision := "", fecha_vencimiento := "", notas := "" }

theorem foldl_max_id_spec (l : List Factura) (a : ℕ) :
    l.foldl (fun m g => max m g.id) a ∈ a :: l.map Factura.id ∧
    a ≤ l.foldl (fun m g => max m g.id) a ∧
    ∀ i ∈ l.map Factura.id, i ≤ l.foldl (fun m g => max m g.id) a := by
  induction l generalizing a with
  | nil => simp
  | cons f fs ih =>
    obtain ⟨h1, h2, h3⟩ := ih (max a f.id)
    refine ⟨?_, ?_, ?_⟩
    · simp only [List.foldl_cons, List.map_cons]
      rcases max_choice a f.id with hm | hm <;> rw [hm] at h1 ⊢ <;>
        simp only [List.mem_cons] at h1 ⊢ <;> tauto
    · exact le_trans (le_max_left a f.id) h2
    · intro i hi
      simp only [List.map_cons, List.mem_cons] at hi
      rcases hi with h | h
      · exact h ▸ le_trans (le_max_right a f.id) h2
      · exact h3 i h

/-- C4: `obtener_siguiente_id` returns `1` on the empty collection, and on any
non-empty collection returns the maximum of the existing ids plus one; on a
collection with ids `{3, 7, 2}` it returns `8`. -/
theorem obtener_siguiente_id_spec :
    obtener_siguiente_id [] = 1 ∧
    (∀ l : List Factura, l ≠ [] →
      ∃ m, m ∈ l.map Factura.id ∧ (∀ i ∈ l.map Factura.id, i ≤ m) ∧
        obtener_siguiente_id l = m + 1) ∧
    obtener_siguiente_id [facturaEjemplo 3, facturaEjemplo 7, facturaEjemplo 2] = 8 := by
  refine ⟨rfl, ?_, rfl⟩
  intro l hl
  match l with
  | f :: fs =>
    obtain ⟨h1, h2, h3⟩ := foldl_max_id_spec fs f.id
    refine ⟨fs.foldl (fun m g => max m g.id) f.id, ?_, ?_, by rfl⟩
    · simp only [List.mem_cons] at h1
      simp only [List.map_cons, List.mem_cons]
      tauto
    · intro i hi
      simp only [List.map_cons, List.mem_cons] at hi
      rcases hi with h | h
      · exact h ▸ h2
      · exact h3 i h

theorem obtener_siguiente_id_spec_witness :
    ∃ m, m ∈ [facturaEjemplo 3].map Factura.id ∧
      (∀ i ∈ [facturaEjemplo 3].map Factura.id, i ≤ m) ∧
      obtener_siguiente_id [facturaEjemplo 3] = m + 1 :=
  obtener_siguiente_id_spec.2.1 [facturaEjemplo 3] (by simp)

/-- Outcome of reading the snapshot file `facturas.json` in `cargar_facturas`
(main.py lines 45-56).  The file may be absent (`os.path.exists` false); the
read may raise `IOError` (caught at line 53); the file's bytes may fail to
decode as UTF-8 — `open(..., encoding='utf-8')` then raises
`UnicodeDecodeError`, which is a `ValueError` and is caught by *neither*
except arm (only `json.JSONDecodeError` and `IOError` are); or the read and
decode succeed and yield the content as a string. -/
inductive LecturaArchivo where
  | ausente
  | errorLectura
  | errorDecodificacion
  | contenido (s : String)

/-- An exception that escapes `cargar_facturas` uncaught: the
`UnicodeDecodeError` raised while decoding the snapshot bytes. -/
inductive ErrorNoCapturado where
  | unicodeDecodeError

/-- The whitespace set of Python's `str.strip()` / `str.isspace()` (Unicode
whitespace): code points 9-13 (tab, newline, vertical tab, form feed,
carriage return), 28-32 (the separator controls and space), 133 (next line),
160 (no-break space), 5760 (U+1680), 8192-8202 (U+2000-U+200A), 8232-8233
(U+2028-U+2029), 8239 (U+202F), 8287 (U+205F) and 12288 (U+3000). -/
def esEspacioPython (c : Char) : Bool :=
  let n := c.toNat
  (9 ≤ n && n ≤ 13) || (28 ≤ n && n ≤ 32) || n == 133 || n == 160 || n == 5760 ||
    (8192 ≤ n && n ≤ 8202) || n == 8232 || n == 8233 || n == 8239 || n == 8287 ||
    n == 12288

/-- Model of the emptiness test `not content.strip()` (main.py line 50): the
content strips to the empty string exactly when every character is Python
whitespace. -/
def esEnBlanco (s : String) : Bool := s.data.all esEspacioPython

/-- Model of `cargar_facturas` (main.py lines 45-56).  `json.loads` is the
Python standard library (external to this repository), modelled by the
abstract parameter `parseJson`; `none` stands for `json.JSONDecodeError`.
A successful (non-raising) run returns the loaded collection together with a
flag recording whether `st.error` was called (the load warning); an
`Except.error` result is an exception that propagates out of the function
uncaught — the `try` at line 46 catches only `json.JSONDecodeError` and
`IOError`, so the `UnicodeDecodeError` of an undecodable snapshot escapes. -/
def cargar_facturas (r : LecturaArchivo) (parseJson : String → Option (List Factura)) :
    Except ErrorNoCapturado (List Factura × Bool) :=
  match r with
  | LecturaArchivo.ausente => Except.ok ([], false)
  | LecturaArchivo.errorLectura => Except.ok ([], true)
  | LecturaArchivo.errorDecodificacion => Except.error ErrorNoCapturado.unicodeDecodeError
  | LecturaArchivo.contenido c =>
    if esEnBlanco c then Except.ok ([], false)
    else
      match parseJson c with
      | some facturas => Except.ok (facturas, false)
      | none => Except.ok ([], true)

/-- C6 counterexample: on a malformed snapshot whose bytes are not valid
UTF-8 (e.g. a truncated multi-byte character — the writer uses
`ensure_ascii=False`, so such content arises from truncation), the
`UnicodeDecodeError` raised by the decoding read is caught by neither except
arm of `cargar_facturas` (main.py line 53 catches only `json.JSONDecodeError`
and `IOError`): the load raises instead of reporting a warning and returning
the empty collection, refuting "never raises an exception". -/
theorem cargar_facturas_nunca_lanza_cex :
    cargar_facturas LecturaArchivo.errorDecodificacion (fun _ => none)
      = Except.error ErrorNoCapturado.unicodeDecodeError ∧
    ∀ resultado : List Factura × Bool,
      cargar_facturas LecturaArchivo.errorDecodificacion (fun _ => none)
        ≠ Except.ok resultado := by
  refine ⟨rfl, ?_⟩
  intro resultado h
  simp [cargar_facturas] at h

/-- C6 (amended): `cargar_facturas` returns the empty collection without a
warning when the snapshot file is absent or its decoded content is blank;
when the read raises `IOError` or the decoded content is malformed JSON
(`json.loads` fails) it reports a load error and still returns the empty
collection without raising; but when the snapshot bytes do not decode as
UTF-8, the resulting `UnicodeDecodeError` is caught by neither except arm and
propagates to the caller — load can raise on that one malformed-content
path. -/
theorem cargar_facturas_spec (parseJson : String → Option (List Factura)) (c : String) :
    cargar_facturas LecturaArchivo.ausente parseJson = Except.ok ([], false) ∧
    cargar_facturas LecturaArchivo.errorLectura parseJson = Except.ok ([], true) ∧
    (esEnBlanco c = true →
      cargar_facturas (LecturaArchivo.contenido c) parseJson = Except.ok ([], false)) ∧
    (esEnBlanco c = false → parseJson c = none →
      cargar_facturas (LecturaArchivo.contenido c) parseJson = Except.ok ([], true)) ∧
    (∀ l, esEnBlanco c = false → parseJson c = some l →
      cargar_facturas (LecturaArchivo.contenido c) parseJson = Except.ok (l, false)) ∧
    cargar_facturas LecturaArchivo.errorDecodificacion parseJson
      = Except.error ErrorNoCapturado.unicodeDecodeError := by
  refine ⟨rfl, rfl, ?_, ?_, ?_, rfl⟩
  · intro h
    simp [cargar_facturas, h]
  · intro h hp
    simp [cargar_facturas, h, hp]
  · intro l h hp
    simp [cargar_facturas, h, hp]

theorem cargar_facturas_spec_witness :
    cargar_facturas (LecturaArchivo.contenido ("x")) (fun _ => none)
      = Except.ok ([], true) :=
  (cargar_facturas_spec (fun _ => none) ("x")).2.2.2.1 (by rfl) rfl

/-- Model of the exception class `FacturaError` (main.py lines 29-31), with
one constructor per `raise FacturaError(...)` site in `guardar_facturas`. -/
inductive FacturaError where
  | noSePudoGuardar
  | errorInesperado

/-- Outcome of the snapshot write attempted by `guardar_facturas` (main.py
lines 58-68): success, or one of the exception classes its `except` arms
catch (`IOError`, `TypeError`, `ValueError`, or any other `Exception`). -/
inductive EscrituraArchivo where
  | ok
  | ioError
  | typeError
  | valueError
  | errorInesperado

/-- Model of `guardar_facturas` (main.py lines 58-68): on a successful write
the snapshot now holds the full serialized collection (returned in
`Except.ok`); any write or serialization failure is re-raised as a
`FacturaError` (returned in `Except.error`), so the store error propagates to
the caller instead of being swallowed — unlike load errors, which
`cargar_facturas` only reports in its boolean component. -/
def guardar_facturas (w : EscrituraArchivo) (facturas : List Factura) :
    Except FacturaError (List Factura) :=
  match w with
  | EscrituraArchivo.ok => Except.ok facturas
  | EscrituraArchivo.ioError => Except.error FacturaError.noSePudoGuardar
  | EscrituraArchivo.typeError => Except.error FacturaError.noSePudoGuardar
  | EscrituraArchivo.valueError => Except.error FacturaError.noSePudoGuardar
  | EscrituraArchivo.errorInesperado => Except.error FacturaError.errorInesperado

/-- C7: `guardar_facturas` raises a `FacturaError` (i.e. evaluates to
`Except.error`) exactly when the snapshot write fails, and on success it
returns the full serialized collection as the new snapshot, overwriting the
prior one; the error value propagates in the `Except` result rather than
being swallowed. -/
theorem guardar_facturas_spec (w : EscrituraArchivo) (facturas : List Factura) :
    ((∃ e, guardar_facturas w facturas = Except.error e) ↔ w ≠ EscrituraArchivo.ok) ∧
    guardar_facturas EscrituraArchivo.ok facturas = Except.ok facturas := by
  refine ⟨?_, rfl⟩
  cases w <;> simp [guardar_facturas]

/-- The invoice id used by the finalize action (main.py lines 527-528):
`st.session_state['factura_editando'] or obtener_siguiente_id(...)` — the id
being edited when that value is truthy (non-`None` and nonzero), otherwise the
next fresh id. -/
def facturaIdFinal (factura_editando : Option ℕ) (facturas : List Factura) : ℕ :=
  match factura_editando with
  | some i => if i = 0 then obtener_siguiente_id facturas else i
  | none => obtener_siguiente_id facturas

/-- Truthiness of `st.session_state['factura_editando']` as used by the guard
`if st.session_state['factura_editando']:` (main.py line 549). -/
def esEditando (factura_editando : Option ℕ) : Bool :=
  match factura_editando with
  | some i => i != 0
  | none => false

/-- The record `nueva_factura_data` built by the finalize action (main.py
lines 538-547). -/
def nuevaFacturaData (factura_id : ℕ) (cliente : String) (archivo : String)
    (productos : List Producto) (descuento : ℚ)
    (fecha_emision fecha_vencimiento : String) (notas : String) : Factura :=
  { id := factura_id, cliente := cliente, archivo := archivo, productos := productos,
    descuento := descuento, fecha_emision := fecha_emision,
    fecha_vencimiento := fecha_vencimiento, notas := notas }

/-- The `FacturaError` surfaced by the finalize action's handler (main.py
lines 561-562), according to which step raised it: PDF generation
(`generar_factura`, main.py lines 168-170) or the snapshot write
(`guardar_facturas`, main.py lines 63-68). -/
inductive AccionError where
  | renderError
  | storeError

/-- The finalize action of `main` (main.py lines 524-562), modelled over two
outcome parameters: `render_ok` (does `generar_factura` return a path rather
than raise?) and `save_ok` (does `guardar_facturas` succeed?).  The model
follows the source order exactly: compute the id, render (raising aborts
before any mutation), then filter out the edited id when editing, append the
new record, and only then write the snapshot — a write failure is surfaced
after the in-memory list has already been mutated.  The result is the
in-memory collection after the action together with the surfaced error, if
any. -/
def finalizar (render_ok save_ok : Bool) (factura_editando : Option ℕ)
    (cliente : String) (productos : List Producto) (descuento : ℚ)
    (pdf_path : String) (fecha_emision fecha_vencimiento : String) (notas : String)
    (facturas : List Factura) : List Factura × Option AccionError :=
  if render_ok then
    let factura_id := facturaIdFinal factura_editando facturas
    let nueva := nuevaFacturaData factura_id cliente pdf_path productos descuento
      fecha_emision fecha_vencimiento notas
    let facturas2 :=
      (if esEditando factura_editando then
        facturas.filter (fun f => f.id != factura_id)
      else facturas) ++ [nueva]
    if save_ok then (facturas2, none) else (facturas2, some AccionError.storeError)
  else (facturas, some AccionError.renderError)

/-- C5 counterexample: starting from the empty store, when rendering succeeds
but the snapshot write fails, the finalize action surfaces the store error yet
the in-memory collection is no longer the prior state — the new invoice record
was already appended before the write was attempted (main.py lines 549-556
mutate `st.session_state['facturas']` before calling `guardar_facturas`). -/
theorem finalizar_store_error_muta :
    (finalizar true false none ("Acme") [⟨("Consulting"), 2, 100⟩] 0 ("f.pdf")
        ("2026-01-01") ("2026-01-31") ("") []).2 = some AccionError.storeError ∧
    (finalizar true false none ("Acme") [⟨("Consulting"), 2, 100⟩] 0 ("f.pdf")
        ("2026-01-01") ("2026-01-31") ("") []).1 ≠ [] := by
  refine ⟨rfl, ?_⟩
  have h : (finalizar true false none ("Acme") [⟨("Consulting"), 2, 100⟩] 0 ("f.pdf")
      ("2026-01-01") ("2026-01-31") ("") []).1
      = [nuevaFacturaData 1 ("Acme") ("f.pdf") [⟨("Consulting"), 2, 100⟩] 0
          ("2026-01-01") ("2026-01-31") ("")] := rfl
  rw [h]
  exact List.cons_ne_nil _ _

/-- C5 (amended): if rendering fails during the finalize action, the action
aborts with the render error surfaced and the prior state is left fully
intact — no record is added or replaced, for every draft and store content
(render-then-persist ordering).  If instead the snapshot write fails, the
store error is surfaced, but the new record has already been added to the
in-memory collection before the write was attempted; only the durable
snapshot is not committed. -/
theorem finalizar_errores_spec (save_ok : Bool) (factura_editando : Option ℕ)
    (cliente : String) (productos : List Producto) (descuento : ℚ)
    (pdf_path fe fv notas : String) (facturas : List Factura) :
    finalizar false save_ok factura_editando cliente productos descuento
        pdf_path fe fv notas facturas = (facturas, some AccionError.renderError) ∧
    (finalizar true false factura_editando cliente productos descuento
        pdf_path fe fv notas facturas).2 = some AccionError.storeError ∧
    nuevaFacturaData (facturaIdFinal factura_editando facturas) cliente pdf_path
        productos descuento fe fv notas
      ∈ (finalizar true false factura_editando cliente productos descuento
          pdf_path fe fv notas facturas).1 := by
  refine ⟨rfl, rfl, ?_⟩
  have h : (finalizar true false factura_editando cliente productos descuento
      pdf_path fe fv notas facturas).1
      = (if esEditando factura_editando then
          facturas.filter
            (fun f => f.id != facturaIdFinal factura_editando facturas)
        else facturas)
        ++ [nuevaFacturaData (facturaIdFinal factura_editando facturas) cliente
            pdf_path productos descuento fe fv notas] := rfl
  rw [h]
  exact List.mem_append_right _ (List.mem_singleton_self _)

theorem length_filter_quitar_id (l : List Factura) (n : ℕ)
    (hnodup : (l.map Factura.id).Nodup) (hmem : n ∈ l.map Factura.id) :
    (l.filter fun f => f.id != n).length + 1 = l.length := by
  induction l with
  | nil => simp at hmem
  | cons f fs ih =>
    simp only [List.map_cons, List.nodup_cons] at hnodup
    obtain ⟨hfid, hnd⟩ := hnodup
    simp only [List.map_cons, List.mem_cons] at hmem
    rcases hmem with h | h
    · subst h
      rw [List.filter_cons]
      have hself : fs.filter (fun g => g.id != f.id) = fs := by
        apply List.filter_eq_self.mpr
        intro g hg
        simp only [bne_iff_ne, ne_eq]
        intro hgf
        exact hfid (hgf ▸ List.mem_map_of_mem Factura.id hg)
      simp [hself]
    · have hfn : (f.id != n) = true := by
        simp only [bne_iff_ne, ne_eq]
        intro hfe
        exact hfid (hfe ▸ h)
      rw [List.filter_cons, if_pos hfn]
      simp only [List.length_cons]
      have := ih hnd h
      omega

/-- C8: for every store containing an invoice with id `n` (ids unique, `n ≥ 1`
as the data model requires), finalizing an edit of that invoice replaces the
record: the collection size is unchanged, the new record carries the same id
`n`, and the record of every other id is unaffected. -/
theorem finalizar_editar_reemplaza (facturas : List Factura) (n : ℕ) (cliente : String)
    (productos : List Producto) (descuento : ℚ) (pdf_path fe fv notas : String)
    (hpos : 0 < n)
    (hnodup : (facturas.map Factura.id).Nodup)
    (hmem : n ∈ facturas.map Factura.id) :
    ((finalizar true true (some n) cliente productos descuento pdf_path fe fv notas
        facturas).1).length = facturas.length ∧
    nuevaFacturaData n cliente pdf_path productos descuento fe fv notas
      ∈ (finalizar true true (some n) cliente productos descuento pdf_path fe fv notas
          facturas).1 ∧
    (nuevaFacturaData n cliente pdf_path productos descuento fe fv notas).id = n ∧
    ∀ f : Factura, f.id ≠ n →
      (f ∈ (finalizar true true (some n) cliente productos descuento pdf_path fe fv notas
          facturas).1 ↔ f ∈ facturas) := by
  have hn0 : n ≠ 0 := hpos.ne'
  have hid : facturaIdFinal (some n) facturas = n := by
    simp [facturaIdFinal, hn0]
  have hed : esEditando (some n) = true := by
    simp [esEditando, hn0]
  have hres : (finalizar true true (some n) cliente productos descuento pdf_path fe fv notas
      facturas).1
      = facturas.filter (fun f => f.id != n)
        ++ [nuevaFacturaData n cliente pdf_path productos descuento fe fv notas] := by
    simp [finalizar, hid, hed]
  refine ⟨?_, ?_, rfl, ?_⟩
  · rw [hres, List.length_append]
    have := length_filter_quitar_id facturas n hnodup hmem
    simp only [List.length_singleton]
    omega
  · rw [hres]
    exact List.mem_append_right _ (List.mem_singleton_self _)
  · intro f hf
    rw [hres]
    simp only [List.mem_append, List.mem_filter, List.mem_singleton, bne_iff_ne, ne_eq]
    constructor
    · rintro (⟨h1, _⟩ | rfl)
      · exact h1
      · exact absurd rfl hf
    · intro h1
      exact Or.inl ⟨h1, hf⟩

theorem finalizar_editar_reemplaza_witness :
    ((finalizar true true (some 5) ("Acme") [] 0 ("nuevo.pdf") ("2026-01-01")
        ("2026-01-31") ("") [facturaEjemplo 5]).1).length = [facturaEjemplo 5].length :=
  (finalizar_editar_reemplaza [facturaEjemplo 5] 5 ("Acme") [] 0 ("nuevo.pdf")
    ("2026-01-01") ("2026-01-31") ("") (by norm_num) (by simp [facturaEjemplo])
    (by simp [facturaEjemplo])).1

/-- C10: finalizing an edit of invoice id `n` (with `n ≥ 1`) removes the old
record by id and appends the new record with the same id at the end of the
collection, so the edited invoice occupies the last position of the stored
order — every record before the last has a different id — rather than
retaining its original position. -/
theorem finalizar_editar_al_final (facturas : List Factura) (n : ℕ) (cliente : String)
    (productos : List Producto) (descuento : ℚ) (pdf_path fe fv notas : String)
    (hpos : 0 < n) :
    (finalizar true true (some n) cliente productos descuento pdf_path fe fv notas
        facturas).1
      = facturas.filter (fun f => f.id != n)
        ++ [nuevaFacturaData n cliente pdf_path productos descuento fe fv notas] ∧
    ((finalizar true true (some n) cliente productos descuento pdf_path fe fv notas
        facturas).1).getLast?
      = some (nuevaFacturaData n cliente pdf_path productos descuento fe fv notas) ∧
    (nuevaFacturaData n cliente pdf_path productos descuento fe fv notas).id = n ∧
    ∀ f ∈ ((finalizar true true (some n) cliente productos descuento pdf_path fe fv notas
        facturas).1).dropLast, f.id ≠ n := by
  have hn0 : n ≠ 0 := hpos.ne'
  have hid : facturaIdFinal (some n) facturas = n := by
    simp [facturaIdFinal, hn0]
  have hed : esEditando (some n) = true := by
    simp [esEditando, hn0]
  have hres : (finalizar true true (some n) cliente productos descuento pdf_path fe fv notas
      facturas).1
      = facturas.filter (fun f => f.id != n)
        ++ [nuevaFacturaData n cliente pdf_path productos descuento fe fv notas] := by
    simp [finalizar, hid, hed]
  refine ⟨hres, ?_, rfl, ?_⟩
  · rw [hres]
    simp
  · rw [hres]
    intro f hf
    simp only [List.dropLast_concat, List.mem_filter, bne_iff_ne, ne_eq] at hf
    exact hf.2

theorem finalizar_editar_al_final_witness :
    ((finalizar true true (some 5) ("Acme") [] 0 ("nuevo.pdf") ("2026-01-01")
        ("2026-01-31") ("") []).1).getLast?
      = some (nuevaFacturaData 5 ("Acme") ("nuevo.pdf") [] 0 ("2026-01-01")
          ("2026-01-31") ("")) :=
  (finalizar_editar_al_final [] 5 ("Acme") [] 0 ("nuevo.pdf") ("2026-01-01")
    ("2026-01-31") ("") (by norm_num)).2.1

/-- The subtotal recomputed for display by `main` (main.py lines 478-484): the
loop variables `precio` and `cantidad` of the product-display loop (main.py
line 447) leak out of scope, so after the loop they hold the *last* product's
values and the displayed subtotal is computed from that product alone.  The
code runs only when the product list is non-empty (main.py line 443); the
`none` branch is unreachable there. -/
def ui_subtotal (productos : List Producto) : ℚ :=
  match productos.getLast? with
  | some p => calcular_base_imponible (total_linea p.cantidad p.precio)
  | none => 0

/-- C9: the UI-displayed subtotal is computed from only the last line item
(`base_from_total(line_total(q_last, p_last))`), whereas the PDF renderer sums
`base_from_total` over the full item list; on the two-item list
[("A", 1, 100), ("B", 1, 100)] the two computations differ (84.75 vs
169.50). -/
theorem ui_subtotal_solo_ultimo :
    (∀ (l : List Producto) (p : Producto), l.getLast? = some p →
        ui_subtotal l = calcular_base_imponible (total_linea p.cantidad p.precio)) ∧
    (∀ l : List Producto, facturaSubtotal l
        = (l.map fun p => calcular_base_imponible (total_linea p.cantidad p.precio)).sum) ∧
    ui_subtotal [⟨("A"), 1, 100⟩, ⟨("B"), 1, 100⟩]
      ≠ facturaSubtotal [⟨("A"), 1, 100⟩, ⟨("B"), 1, 100⟩] := by
  refine ⟨?_, ?_, ?_⟩
  · intro l p h
    rw [ui_subtotal, h]
  · intro l
    rw [facturaSubtotal, foldl_base_eq_sum, zero_add]
  · have h1 : ui_subtotal [⟨("A"), 1, 100⟩, ⟨("B"), 1, 100⟩]
        = calcular_base_imponible (total_linea 1 100) := rfl
    have h2 : facturaSubtotal [⟨("A"), 1, 100⟩, ⟨("B"), 1, 100⟩]
        = calcular_base_imponible (total_linea 1 100)
          + calcular_base_imponible (total_linea 1 100) := by
      simp [facturaSubtotal, total_linea]
    have hb : calcular_base_imponible (total_linea 1 100) = 8475 / 100 := by
      norm_num [calcular_base_imponible, total_linea, quantize2HalfUp, igvRate]
    rw [h1, h2, hb]
    norm_num

theorem ui_subtotal_solo_ultimo_witness :
    ui_subtotal [⟨("A"), 1, 100⟩]
      = calcular_base_imponible (total_linea 1 100) :=
  ui_subtotal_solo_ultimo.1 [⟨("A"), 1, 100⟩] ⟨("A"), 1, 100⟩ rfl
